import Mathlib

/-!
Shallow embedding of `src/isolate/three_phase_task.cc` (isolated-vm's
three-phase cross-isolate task protocol) and proofs about its behaviour.

The file models:
* `ThreePhaseTask::Phase2Runner` — the queued Task+CalleeInfo item, its
  `Run` method (which sets `did_run`, runs Phase2 and schedules the
  `Phase3Success` / `Phase3Failure` follow-up), and its destructor (which
  schedules `Phase3Orphan` when `did_run` is still false);
* the three follow-up runnables `Phase3Success`, `Phase3Failure`,
  `Phase3Orphan` and their `Run` methods;
* `ThreePhaseTask::Phase2RunnerIgnored::Run` (fire-and-ignore variant);
* `ThreePhaseTask::RunSync` (the synchronous mode).

External collaborators that live outside this source file (stack handling,
externalization, the task queue, promises, microtasks) are modelled from the
spec, as noted on each definition.
-/

namespace ThreePhase

/-- Modelled from the spec: an abstract JavaScript value as seen by this
bridge.  An object (`obj`) carries an error message and a stack chain (a list
of abstract stack-capture identifiers); a non-object primitive (`prim`)
carries none — `v8::Value::IsObject` distinguishes the two. -/
inductive JSValue where
  | obj (msg : String) (stackChain : List Nat) : JSValue
  | prim (n : Nat) : JSValue
  deriving DecidableEq, Repr

/-- `rejection->IsObject()` from the source: only objects can carry a stack. -/
def JSValue.isObject : JSValue → Bool
  | .obj _ _ => true
  | .prim _ => false

/-- The error message of an error object (empty for primitives). -/
def JSValue.message : JSValue → String
  | .obj m _ => m
  | .prim _ => ""

/-- Modelled from the spec: `StackTraceHolder::AttachStack` *sets* the stack
on an error object, replacing whatever chain was there.  `StackTraceHolder`
is declared outside this source file; the spec says `attach(errorValue,
handle)` (sets). -/
def attachStack : JSValue → Nat → JSValue
  | .obj m _, s => .obj m [s]
  | .prim n, _ => .prim n

/-- Modelled from the spec: `StackTraceHolder::ChainStack` *appends* a stack
to the error object's existing chain (`chain(errorValue, handle)` appends to
an existing chain). -/
def chainStack : JSValue → Nat → JSValue
  | .obj m st, s => .obj m (st ++ [s])
  | .prim n, _ => .prim n

/-- The user-supplied task: `Phase2` runs in the target isolate and either
succeeds or throws a JS value; `Phase3` runs in the caller isolate and either
returns a value or throws.  (`Phase1` happens before the code in this file is
reached.) -/
structure Task where
  phase2 : Except JSValue Unit
  phase3 : Except JSValue JSValue
  deriving Repr

/-- `ThreePhaseTask::CalleeInfo` — the caller-bound bundle: the caller
context (identified by an abstract id; the promise resolver lives there) and
the stack captured at invocation time (`remotes.Deref<2>()`). -/
structure CalleeInfo where
  callerContext : Nat
  stack : Nat
  deriving DecidableEq, Repr

/-- Observable actions performed while a runnable or `RunSync` executes, in
order: settling the promise (`resolve`/`reject`), draining microtasks
(`isolate->RunMicrotasks()`), running the target's `TaskEpilogue`, running
`Phase2`/`Phase3`, and acquiring/releasing the target's `ExecutorLock`. -/
inductive Event where
  | resolve (v : JSValue)
  | reject (v : JSValue)
  | microtasks
  | epilogue
  | phase2
  | phase3
  | lockAcquire
  | lockRelease
  deriving DecidableEq, Repr

/-- An event is a settlement of the caller-bound future. -/
def isSettlement : Event → Bool
  | .resolve _ => true
  | .reject _ => true
  | _ => false

/-- Number of times the future is settled in an event trace. -/
def settlementCount (evs : List Event) : Nat := evs.countP isSettlement

/-- The three follow-up runnables defined inside `Phase2Runner`:
`Phase3Success` and `Phase3Failure` (scheduled by `Phase2Runner::Run`) and
`Phase3Orphan` (scheduled by `~Phase2Runner` when the item never ran).  Each
carries the moved-in `Task` and `CalleeInfo`; `Phase3Failure` additionally
carries the externalized error, which is null when externalization failed. -/
inductive FollowUp where
  | phase3Success (task : Task) (info : CalleeInfo)
  | phase3Failure (task : Task) (info : CalleeInfo) (error : Option JSValue)
  | phase3Orphan (task : Task) (info : CalleeInfo)
  deriving Repr

/-- Modelled from the spec: a call to `IsolateHolder::ScheduleTask(item,
run_inline, wake)` — the queue itself lives outside this file.  We record the
target context the item is posted to, the item, and the two boolean flags as
passed at each call site (`false, true` everywhere in this file; the second
flag makes the item run even if the target is disposed). -/
structure Scheduled where
  targetContext : Nat
  item : FollowUp
  urgent : Bool
  runEvenIfDisposed : Bool
  deriving Repr

/-- Fixed message of the disposed-context error created by
`Phase3Orphan::Run` (`Exception::Error(v8_string("Isolate is disposed"))`). -/
def orphanDisposedMsg : String := "Isolate is disposed"

/-- Fixed message thrown by `RunSync` when the target isolate is gone
(`js_generic_error("Isolated is disposed")`). -/
def syncDisposedMsg : String := "Isolated is disposed"

/-- Message of the generic placeholder used by `Phase3Failure::Run` when the
externalized error is null. -/
def placeholderMsg : String := "An exception was thrown. Sorry I don't know more."

/-- Message of the deadlock-prevention error thrown by `RunSync`. -/
def deadlockMsg : String :=
  "Calling a synchronous isolated-vm function from within an asynchronous isolated-vm function is not allowed."

/-- `Run` of each follow-up runnable, as the ordered trace of observable
events it performs in the caller context.

* `Phase3Orphan::Run`: builds a fresh `Exception::Error("Isolate is
  disposed")`, attaches the originally captured stack, rejects the promise,
  then runs microtasks.
* `Phase3Failure::Run`: materializes the carried error (`error->CopyInto()`),
  or a generic placeholder error when the carried error is null; chains the
  captured stack onto it when it is an object; rejects; runs microtasks.
* `Phase3Success::Run`: evaluates `Phase3()` in a catch scope; on success
  resolves with its result; on a throw attaches the captured stack (when the
  thrown value is an object) and rejects; runs microtasks either way. -/
def FollowUp.run : FollowUp → List Event
  | .phase3Orphan _ info =>
      let error := attachStack (JSValue.obj orphanDisposedMsg []) info.stack
      [.reject error, .microtasks]
  | .phase3Failure _ info err =>
      let rejection :=
        match err with
        | some e => e
        | none => JSValue.obj placeholderMsg []
      let rejection :=
        if rejection.isObject then chainStack rejection info.stack else rejection
      [.reject rejection, .microtasks]
  | .phase3Success task info =>
      match task.phase3 with
      | .ok v => [.phase3, .resolve v, .microtasks]
      | .error e =>
          let e := if e.isObject then attachStack e info.stack else e
          [.phase3, .reject e, .microtasks]

/-- `ThreePhaseTask::Phase2Runner` — the queued item: the owned task, the
callee info, and the `did_run` flag (initialized `false` in the header). -/
structure Phase2Runner where
  task : Task
  info : CalleeInfo
  did_run : Bool
  deriving Repr

/-- A freshly constructed `Phase2Runner` (the constructor only moves the two
pointers in; `did_run` starts false). -/
def Phase2Runner.make (t : Task) (i : CalleeInfo) : Phase2Runner :=
  { task := t, info := i, did_run := false }

/-- `Phase2Runner::Run`, parametrized by the externalization capability
`ext` (modelled from the spec: `RunCatchExternal` hands the catch branch an
`ExternalCopy` that is null when the thrown value could not be
externalized; materializing the copy back yields the value `ext` returns).

Sets `did_run = true`, then runs `Phase2()` in the catch-external scope: on
success runs the target's `TaskEpilogue` and schedules `Phase3Success`; on a
throw schedules `Phase3Failure` carrying the externalized error.  Both are
posted to the caller context's queue with flags `(false, true)`.  Returns the
updated runner state, the events performed in the target isolate, and the
scheduled follow-up. -/
def Phase2Runner.Run (ext : JSValue → Option JSValue) (r : Phase2Runner) :
    Phase2Runner × List Event × Scheduled :=
  let r₂ := { r with did_run := true }
  match r.task.phase2 with
  | .ok _ =>
      (r₂, [.phase2, .epilogue],
        ⟨r.info.callerContext, .phase3Success r.task r.info, false, true⟩)
  | .error v =>
      (r₂, [.phase2],
        ⟨r.info.callerContext, .phase3Failure r.task r.info (ext v), false, true⟩)

/-- `~Phase2Runner`: when the item is destroyed without having run
(`!did_run`), a `Phase3Orphan` carrying the same task and callee info is
scheduled onto the caller context's queue with flags `(false, true)`;
otherwise nothing is scheduled. -/
def Phase2Runner.destroy (r : Phase2Runner) : Option Scheduled :=
  if r.did_run then none
  else some ⟨r.info.callerContext, .phase3Orphan r.task r.info, false, true⟩

/-- The two possible fates of a queued `Phase2Runner`: the target's queue
executed it (then destroyed it), or the queue discarded it without running
(target disposed first). -/
inductive Lifecycle where
  | ran
  | dropped
  deriving DecidableEq, Repr

/-- Full observable event trace of one asynchronous invocation after the
item was queued, for either fate.  If the item ran: the events of
`Phase2Runner::Run`, then the scheduled follow-up's events (its schedule
flags make it run even if the caller is disposed), then whatever the
destructor schedules (and that item's events).  If it was dropped: only what
the destructor schedules. -/
def asyncEvents (ext : JSValue → Option JSValue) (t : Task) (i : CalleeInfo) :
    Lifecycle → List Event
  | .ran =>
      let step := (Phase2Runner.make t i).Run ext
      let orphanEvents :=
        match step.1.destroy with
        | some s => s.item.run
        | none => []
      step.2.1 ++ step.2.2.item.run ++ orphanEvents
  | .dropped =>
      match (Phase2Runner.make t i).destroy with
      | some s => s.item.run
      | none => []

/-- `ThreePhaseTask::Phase2RunnerIgnored::Run` — the fire-and-ignore
variant: runs `Phase2()` and, when it does not throw, the target's
`TaskEpilogue`; a `js_runtime_error` thrown by `Phase2` is caught and
discarded.  No promise exists, so no settlement event can occur. -/
def Phase2RunnerIgnored.Run (t : Task) : List Event :=
  match t.phase2 with
  | .ok _ => [.phase2, .epilogue]
  | .error _ => [.phase2]

/-- The environment `RunSync` executes in: whether the target isolate is
still alive (`second_isolate.GetIsolate()` non-null), whether the target is
the currently entered isolate (the same-thread shortcut), whether the calling
thread is the default thread (`ExecutorLock::IsDefaultThread()`), and
whether the target's `v8::Locker` is already held by this thread
(`Locker::IsLocked`, read before acquiring — the reentrancy test). -/
structure SyncEnv where
  targetAlive : Bool
  sameIsolate : Bool
  isDefaultThread : Bool
  lockerIsLocked : Bool
  deriving DecidableEq, Repr

/-- `ThreePhaseTask::RunSync`, parametrized by the externalization
capability `ext` and the identifier `freshStack` of the stack
`StackTrace::CurrentStackTrace` captures after lock release.  Returns the
ordered event trace and the outcome: `.ok v` when a value is returned,
`.error e` when an exception is thrown to the caller.

Faithful to the source: a dead target throws the `"Isolated is disposed"`
generic error; the same-isolate shortcut runs `Phase2()` raw (a throw
propagates) and falls through to `Phase3()`; otherwise a non-default thread
gets the deadlock-prevention error before any lock is taken; otherwise
`is_recursive` is read, the lock is acquired, `Phase2` runs in a
catch-external scope (epilogue only on success and only when not recursive),
the lock is released, and then: a stashed non-null error is materialized,
gets a fresh stack chained when it is an object, and is thrown — while a
null stash (externalization failed, or no failure at all) falls through to
`Phase3()`. -/
def RunSync (ext : JSValue → Option JSValue) (t : Task) (env : SyncEnv)
    (freshStack : Nat) : List Event × Except JSValue JSValue :=
  if !env.targetAlive then
    ([], .error (JSValue.obj syncDisposedMsg []))
  else if env.sameIsolate then
    match t.phase2 with
    | .error v => ([.phase2], .error v)
    | .ok _ =>
        match t.phase3 with
        | .ok v => ([.phase2, .phase3], .ok v)
        | .error e => ([.phase2, .phase3], .error e)
  else if !env.isDefaultThread then
    ([], .error (JSValue.obj deadlockMsg []))
  else
    let is_recursive := env.lockerIsLocked
    match t.phase2 with
    | .ok _ =>
        let evs := [Event.lockAcquire, Event.phase2]
          ++ (if is_recursive then [] else [Event.epilogue]) ++ [Event.lockRelease]
        match t.phase3 with
        | .ok v => (evs ++ [.phase3], .ok v)
        | .error e => (evs ++ [.phase3], .error e)
    | .error v =>
        let evs := [Event.lockAcquire, Event.phase2, Event.lockRelease]
        match ext v with
        | some ec =>
            let errorCopy := if ec.isObject then chainStack ec freshStack else ec
            (evs, .error errorCopy)
        | none =>
            match t.phase3 with
            | .ok v₃ => (evs ++ [.phase3], .ok v₃)
            | .error e => (evs ++ [.phase3], .error e)



/-! ## Theorems about the claims -/

/-- C1: For every asynchronous invocation, the caller-bound future is settled
exactly once — whichever fate the queued item meets (ran or dropped) — and
the `did_run` flag makes the success/failure follow-up and the orphan
fallback mutually exclusive: after `Run` the destructor schedules nothing,
while the destructor of a never-run item schedules exactly the orphan. -/
theorem future_settled_exactly_once (ext : JSValue → Option JSValue) (t : Task)
    (i : CalleeInfo) (lc : Lifecycle) :
    settlementCount (asyncEvents ext t i lc) = 1
    ∧ (((Phase2Runner.make t i).Run ext).1.destroy = none)
    ∧ ((Phase2Runner.make t i).destroy
        = some ⟨i.callerContext, FollowUp.phase3Orphan t i, false, true⟩) := by
  refine ⟨?_, ?_, ?_⟩
  · cases lc with
    | ran =>
        cases h₂ : t.phase2 with
        | ok u =>
            cases h₃ : t.phase3 <;>
              simp [asyncEvents, Phase2Runner.Run, Phase2Runner.make,
                Phase2Runner.destroy, FollowUp.run, settlementCount, isSettlement,
                h₂, h₃]
        | error v =>
            simp [asyncEvents, Phase2Runner.Run, Phase2Runner.make,
              Phase2Runner.destroy, FollowUp.run, settlementCount, isSettlement, h₂]
    | dropped =>
        simp [asyncEvents, Phase2Runner.make, Phase2Runner.destroy, FollowUp.run,
          settlementCount, isSettlement]
  · cases h₂ : t.phase2 <;>
      simp [Phase2Runner.Run, Phase2Runner.make, Phase2Runner.destroy, h₂]
  · simp [Phase2Runner.make, Phase2Runner.destroy]

/-- C2: when the queued item is discarded without running, the destructor
queues a fallback item onto the caller context carrying the same
`CalleeInfo`, and that item, when run, rejects the future with the
disposed-context error bearing the originally captured stack and then drains
microtasks in the caller context. -/
theorem orphan_fallback_settles_future (t : Task) (i : CalleeInfo) :
    ((Phase2Runner.make t i).destroy
      = some ⟨i.callerContext, FollowUp.phase3Orphan t i, false, true⟩)
    ∧ ((FollowUp.phase3Orphan t i).run
      = [Event.reject (JSValue.obj orphanDisposedMsg [i.stack]), Event.microtasks]) := by
  constructor
  · simp [Phase2Runner.make, Phase2Runner.destroy]
  · simp [FollowUp.run, attachStack]

/-- C3 (counterexample): a synchronous invocation whose Phase2 throws a
value that cannot be externalized (`ext` returns none) reaches Phase3 and
returns its value as if Phase2 had succeeded, refuting "when Phase2 fails,
Phase3 is never invoked". -/
theorem runSync_failure_reaches_phase3 :
    (RunSync (fun _ => none)
        { phase2 := Except.error (JSValue.prim 7), phase3 := Except.ok (JSValue.prim 42) }
        { targetAlive := true, sameIsolate := false, isDefaultThread := true,
          lockerIsLocked := false } 9
      = ([Event.lockAcquire, Event.phase2, Event.lockRelease, Event.phase3],
         Except.ok (JSValue.prim 42)))
    ∧ Event.phase3 ∈ (RunSync (fun _ => none)
        { phase2 := Except.error (JSValue.prim 7), phase3 := Except.ok (JSValue.prim 42) }
        { targetAlive := true, sameIsolate := false, isDefaultThread := true,
          lockerIsLocked := false } 9).1 := by
  exact ⟨rfl, by decide⟩

/-- C3 (amended): in synchronous locked mode, when Phase2 fails *and its
error is externalized*, the stashed error is rethrown after lock release with
a fresh stack chained (when it is an object) and Phase3 is never invoked;
when Phase2 succeeds, Phase3 runs directly and its outcome is returned; when
externalization of the failure yields nothing, the failure is dropped and
Phase3 runs as on success; and no future settlement ever happens in this
mode. -/
theorem runSync_spec (ext : JSValue → Option JSValue) (t : Task) (env : SyncEnv)
    (fs : Nat) (hAlive : env.targetAlive = true) (hSame : env.sameIsolate = false)
    (hDefault : env.isDefaultThread = true) :
    (∀ v ec, t.phase2 = Except.error v → ext v = some ec →
        (RunSync ext t env fs).1 = [Event.lockAcquire, Event.phase2, Event.lockRelease]
        ∧ (RunSync ext t env fs).2
            = Except.error (if ec.isObject then chainStack ec fs else ec))
    ∧ (t.phase2 = Except.ok () →
        (RunSync ext t env fs).2 = t.phase3
        ∧ Event.phase3 ∈ (RunSync ext t env fs).1)
    ∧ (∀ v, t.phase2 = Except.error v → ext v = none →
        (RunSync ext t env fs).2 = t.phase3
        ∧ Event.phase3 ∈ (RunSync ext t env fs).1)
    ∧ settlementCount (RunSync ext t env fs).1 = 0 := by
  refine ⟨?_, ?_, ?_, ?_⟩
  · intro v ec hv hec
    simp [RunSync, hAlive, hSame, hDefault, hv, hec]
  · intro hok
    cases h₃ : t.phase3 <;> simp [RunSync, hAlive, hSame, hDefault, hok, h₃]
  · intro v hv hnone
    cases h₃ : t.phase3 <;> simp [RunSync, hAlive, hSame, hDefault, hv, hnone, h₃]
  · cases h₂ : t.phase2 with
    | ok u =>
        cases hr : env.lockerIsLocked <;> cases h₃ : t.phase3 <;>
          simp [RunSync, hAlive, hSame, hDefault, h₂, h₃, hr,
            settlementCount, isSettlement]
    | error v =>
        cases hec : ext v with
        | some ec =>
            simp [RunSync, hAlive, hSame, hDefault, h₂, hec,
              settlementCount, isSettlement]
        | none =>
            cases h₃ : t.phase3 <;>
              simp [RunSync, hAlive, hSame, hDefault, h₂, hec, h₃,
                settlementCount, isSettlement]

/-- C3 witness: a concrete externalizable Phase2 failure is rethrown with
the fresh stack chained, Phase3 untouched. -/
theorem runSync_spec_witness :
    ((RunSync (fun v => some v)
        { phase2 := Except.error (JSValue.obj "boom" []), phase3 := Except.ok (JSValue.prim 0) }
        { targetAlive := true, sameIsolate := false, isDefaultThread := true,
          lockerIsLocked := false } 9).1
      = [Event.lockAcquire, Event.phase2, Event.lockRelease])
    ∧ ((RunSync (fun v => some v)
        { phase2 := Except.error (JSValue.obj "boom" []), phase3 := Except.ok (JSValue.prim 0) }
        { targetAlive := true, sameIsolate := false, isDefaultThread := true,
          lockerIsLocked := false } 9).2
      = Except.error (JSValue.obj "boom" [9])) := by
  have h := (runSync_spec (fun v => some v)
    { phase2 := Except.error (JSValue.obj "boom" []), phase3 := Except.ok (JSValue.prim 0) }
    { targetAlive := true, sameIsolate := false, isDefaultThread := true,
      lockerIsLocked := false } 9 rfl rfl rfl).1
    (JSValue.obj "boom" []) (JSValue.obj "boom" []) rfl rfl
  exact ⟨h.1, by simpa [JSValue.isObject, chainStack] using h.2⟩

/-- C4: when Phase2 throws in asynchronous mode, the runner schedules a
failure item onto the caller context carrying the externalized error; run, it
rejects the future with the materialized error with the captured stack
chained on, or — when externalization failed — with the generic placeholder
error, so the failure is never silently lost. -/
theorem async_phase2_failure_rejects (ext : JSValue → Option JSValue) (t : Task)
    (i : CalleeInfo) (v : JSValue) (h : t.phase2 = Except.error v) :
    (((Phase2Runner.make t i).Run ext).2.2
      = ⟨i.callerContext, FollowUp.phase3Failure t i (ext v), false, true⟩)
    ∧ (ext v = none →
        (FollowUp.phase3Failure t i (ext v)).run
          = [Event.reject (JSValue.obj placeholderMsg [i.stack]), Event.microtasks])
    ∧ (∀ m st, ext v = some (JSValue.obj m st) →
        (FollowUp.phase3Failure t i (ext v)).run
          = [Event.reject (JSValue.obj m (st ++ [i.stack])), Event.microtasks]) := by
  refine ⟨?_, ?_, ?_⟩
  · simp [Phase2Runner.make, Phase2Runner.Run, h]
  · intro hn
    simp [hn, FollowUp.run, JSValue.isObject, chainStack]
  · intro m st hs
    simp [hs, FollowUp.run, JSValue.isObject, chainStack]

/-- C4 witness: a Phase2 throw whose externalization fails is rejected with
the placeholder error carrying the invocation stack. -/
theorem async_phase2_failure_rejects_witness :
    (FollowUp.phase3Failure
        { phase2 := Except.error (JSValue.prim 3), phase3 := Except.ok (JSValue.prim 0) }
        ⟨2, 5⟩ none).run
      = [Event.reject (JSValue.obj placeholderMsg [5]), Event.microtasks] :=
  (async_phase2_failure_rejects (fun _ => none)
    { phase2 := Except.error (JSValue.prim 3), phase3 := Except.ok (JSValue.prim 0) }
    ⟨2, 5⟩ (JSValue.prim 3) rfl).2.1 rfl

/-- C5: a synchronous invocation from a thread that is not already inside
the target isolate and is not the default (blocking-capable) thread fails
with the deadlock-prevention error, with an empty event trace — in
particular no lock acquisition was ever attempted. -/
theorem deadlock_prevention (ext : JSValue → Option JSValue) (t : Task)
    (env : SyncEnv) (fs : Nat) (hAlive : env.targetAlive = true)
    (hSame : env.sameIsolate = false) (hDefault : env.isDefaultThread = false) :
    RunSync ext t env fs = ([], Except.error (JSValue.obj deadlockMsg [])) := by
  simp [RunSync, hAlive, hSame, hDefault]

/-- C5 witness: concrete non-default-thread synchronous call fails before
doing anything. -/
theorem deadlock_prevention_witness :
    RunSync (fun v => some v)
        { phase2 := Except.ok (), phase3 := Except.ok (JSValue.prim 0) }
        { targetAlive := true, sameIsolate := false, isDefaultThread := false,
          lockerIsLocked := false } 0
      = ([], Except.error (JSValue.obj deadlockMsg [])) :=
  deadlock_prevention (fun v => some v)
    { phase2 := Except.ok (), phase3 := Except.ok (JSValue.prim 0) }
    { targetAlive := true, sameIsolate := false, isDefaultThread := false,
      lockerIsLocked := false } 0 rfl rfl rfl

/-- C6 (counterexample): the two disposed-context error sites do not carry
one fixed message — the synchronous path throws "Isolated is disposed" while
the orphan path rejects with "Isolate is disposed"; the messages differ. -/
theorem disposed_message_mismatch :
    ((RunSync (fun _ => none)
        { phase2 := Except.ok (), phase3 := Except.ok (JSValue.prim 0) }
        { targetAlive := false, sameIsolate := false, isDefaultThread := false,
          lockerIsLocked := false } 0).2
      = Except.error (JSValue.obj "Isolated is disposed" []))
    ∧ ((FollowUp.phase3Orphan
        { phase2 := Except.ok (), phase3 := Except.ok (JSValue.prim 0) } ⟨0, 5⟩).run
      = [Event.reject (JSValue.obj "Isolate is disposed" [5]), Event.microtasks])
    ∧ (JSValue.obj "Isolated is disposed" []).message
        ≠ (JSValue.obj "Isolate is disposed" [5]).message := by
  refine ⟨rfl, rfl, ?_⟩
  decide

/-- C6 (amended): each disposed-context error site carries its own fixed
message — the synchronous path always throws the error with message
"Isolated is disposed", the orphan path always rejects the future with the
error with message "Isolate is disposed" (captured stack attached) — and the
two fixed messages are not equal. -/
theorem disposed_messages (ext : JSValue → Option JSValue) (t t₂ : Task)
    (env : SyncEnv) (fs : Nat) (i : CalleeInfo)
    (hDead : env.targetAlive = false) :
    ((RunSync ext t env fs).2 = Except.error (JSValue.obj syncDisposedMsg []))
    ∧ ((FollowUp.phase3Orphan t₂ i).run
        = [Event.reject (JSValue.obj orphanDisposedMsg [i.stack]), Event.microtasks])
    ∧ syncDisposedMsg ≠ orphanDisposedMsg := by
  refine ⟨?_, ?_, ?_⟩
  · simp [RunSync, hDead]
  · simp [FollowUp.run, attachStack]
  · decide

/-- C6 witness: the amended statement at a concrete dead target and orphan. -/
theorem disposed_messages_witness :
    ((RunSync (fun _ => none)
        { phase2 := Except.ok (), phase3 := Except.ok (JSValue.prim 0) }
        { targetAlive := false, sameIsolate := false, isDefaultThread := false,
          lockerIsLocked := false } 0).2
      = Except.error (JSValue.obj syncDisposedMsg []))
    ∧ ((FollowUp.phase3Orphan
        { phase2 := Except.ok (), phase3 := Except.ok (JSValue.prim 0) } ⟨0, 5⟩).run
      = [Event.reject (JSValue.obj orphanDisposedMsg [5]), Event.microtasks])
    ∧ syncDisposedMsg ≠ orphanDisposedMsg :=
  disposed_messages (fun _ => none)
    { phase2 := Except.ok (), phase3 := Except.ok (JSValue.prim 0) }
    { phase2 := Except.ok (), phase3 := Except.ok (JSValue.prim 0) }
    { targetAlive := false, sameIsolate := false, isDefaultThread := false,
      lockerIsLocked := false } 0 ⟨0, 5⟩ rfl

/-- C7 (counterexample): on the async Phase3-throw path the captured stack
is attached, replacing the stack already on the error: a thrown error whose
chain held stack 7 is delivered with chain [5] (the invocation stack alone),
not with 7 kept and 5 appended. -/
theorem phase3_throw_stack_replaced :
    ((FollowUp.phase3Success
        { phase2 := Except.ok (), phase3 := Except.error (JSValue.obj "e" [7]) }
        ⟨1, 5⟩).run
      = [Event.phase3, Event.reject (JSValue.obj "e" [5]), Event.microtasks])
    ∧ JSValue.obj "e" [5] ≠ JSValue.obj "e" ([7] ++ [5]) := by
  refine ⟨rfl, ?_⟩
  decide

/-- C7 (amended): the async Phase2-failure path and the sync Phase2-failure
path chain (append) the invocation-site stack onto the error object's
existing chain; the orphan path and the async Phase3-throw path attach the
captured stack, replacing any chain already on the error. -/
theorem stack_chaining_vs_attach (t : Task) (i : CalleeInfo) (m : String)
    (st : List Nat) (ext : JSValue → Option JSValue) (env : SyncEnv) (fs : Nat) :
    ((FollowUp.phase3Failure t i (some (JSValue.obj m st))).run
        = [Event.reject (JSValue.obj m (st ++ [i.stack])), Event.microtasks])
    ∧ ((FollowUp.phase3Orphan t i).run
        = [Event.reject (JSValue.obj orphanDisposedMsg [i.stack]), Event.microtasks])
    ∧ (t.phase3 = Except.error (JSValue.obj m st) →
        (FollowUp.phase3Success t i).run
          = [Event.phase3, Event.reject (JSValue.obj m [i.stack]), Event.microtasks])
    ∧ (env.targetAlive = true → env.sameIsolate = false →
        env.isDefaultThread = true →
        ∀ v, t.phase2 = Except.error v → ext v = some (JSValue.obj m st) →
        (RunSync ext t env fs).2 = Except.error (JSValue.obj m (st ++ [fs]))) := by
  refine ⟨?_, ?_, ?_, ?_⟩
  · simp [FollowUp.run, JSValue.isObject, chainStack]
  · simp [FollowUp.run, attachStack]
  · intro h₃
    simp [FollowUp.run, h₃, JSValue.isObject, attachStack]
  · intro hAlive hSame hDefault v hv hec
    simp [RunSync, hAlive, hSame, hDefault, hv, hec, JSValue.isObject, chainStack]

/-- C8: in synchronous locked mode, the target's epilogue hook runs exactly
when Phase2 succeeded and the acquisition was not reentrant (the
`Locker::IsLocked` state read before acquiring was false). -/
theorem sync_epilogue_iff (ext : JSValue → Option JSValue) (t : Task)
    (env : SyncEnv) (fs : Nat) (hAlive : env.targetAlive = true)
    (hSame : env.sameIsolate = false) (hDefault : env.isDefaultThread = true) :
    (Event.epilogue ∈ (RunSync ext t env fs).1
      ↔ (t.phase2 = Except.ok () ∧ env.lockerIsLocked = false)) := by
  cases h₂ : t.phase2 with
  | ok u =>
      cases hr : env.lockerIsLocked <;> cases h₃ : t.phase3 <;>
        simp [RunSync, hAlive, hSame, hDefault, h₂, h₃, hr]
  | error v =>
      cases hec : ext v with
      | some ec =>
          simp [RunSync, hAlive, hSame, hDefault, h₂, hec]
      | none =>
          cases h₃ : t.phase3 <;>
            simp [RunSync, hAlive, hSame, hDefault, h₂, hec, h₃]

/-- C8 witness: a successful non-reentrant Phase2 runs the epilogue. -/
theorem sync_epilogue_iff_witness :
    Event.epilogue ∈ (RunSync (fun _ => none)
        { phase2 := Except.ok (), phase3 := Except.ok (JSValue.prim 1) }
        { targetAlive := true, sameIsolate := false, isDefaultThread := true,
          lockerIsLocked := false } 0).1 :=
  (sync_epilogue_iff (fun _ => none)
    { phase2 := Except.ok (), phase3 := Except.ok (JSValue.prim 1) }
    { targetAlive := true, sameIsolate := false, isDefaultThread := true,
      lockerIsLocked := false } 0 rfl rfl rfl).2 ⟨rfl, rfl⟩

/-- C9: the fire-and-ignore variant never settles any future (it performs no
settlement event at all), runs Phase2, and runs the target's epilogue exactly
when Phase2 succeeds; a Phase2 failure is swallowed. -/
theorem fire_and_ignore_never_settles (t : Task) :
    settlementCount (Phase2RunnerIgnored.Run t) = 0
    ∧ (Event.epilogue ∈ Phase2RunnerIgnored.Run t ↔ t.phase2 = Except.ok ())
    ∧ Event.phase2 ∈ Phase2RunnerIgnored.Run t := by
  cases h₂ : t.phase2 <;>
    simp [Phase2RunnerIgnored.Run, h₂, settlementCount, isSettlement]

/-- C10: when the delivered error value is not an object (a thrown
primitive), every failure path skips the stack attach/chain step and still
delivers the raw value unchanged: the async Phase2-failure item rejects with
it, the async Phase3-throw path rejects with it, and the sync path throws it. -/
theorem nonobject_error_delivered_raw (t : Task) (i : CalleeInfo) (n : Nat)
    (ext : JSValue → Option JSValue) (env : SyncEnv) (fs : Nat) :
    ((FollowUp.phase3Failure t i (some (JSValue.prim n))).run
        = [Event.reject (JSValue.prim n), Event.microtasks])
    ∧ (t.phase3 = Except.error (JSValue.prim n) →
        (FollowUp.phase3Success t i).run
          = [Event.phase3, Event.reject (JSValue.prim n), Event.microtasks])
    ∧ (env.targetAlive = true → env.sameIsolate = false →
        env.isDefaultThread = true →
        ∀ v, t.phase2 = Except.error v → ext v = some (JSValue.prim n) →
        (RunSync ext t env fs).2 = Except.error (JSValue.prim n)) := by
  refine ⟨?_, ?_, ?_⟩
  · simp [FollowUp.run, JSValue.isObject]
  · intro h₃
    simp [FollowUp.run, h₃, JSValue.isObject]
  · intro hAlive hSame hDefault v hv hec
    simp [RunSync, hAlive, hSame, hDefault, hv, hec, JSValue.isObject]

end ThreePhase
